import Mathlib

/-!
Shallow embedding of the court-order-assistant billing and task-lifecycle
core (storage/repository.py, app/src/ml_worker.py, app/src/routers/predict.py,
app/src/services/prediction.py, app/src/schemas/predict.py).

Numeric columns (Numeric(12,2) balances, float payloads) are modelled with ℚ,
integer columns with ℤ/ℕ; timestamps are an abstract ℕ clock. Python dict
payloads are modelled as records of optional dynamically-typed values.
-/

namespace CourtOrder

/-- Task lifecycle states, as the string statuses used in the source. -/
inductive TaskStatus
| pending
| processing
| completed
| failed
deriving DecidableEq, Repr

/-- A dynamically-typed Python value as it appears in a JSON input_data dict.
Python bools are a subclass of int, which matters for isinstance checks. -/
inductive PyVal
| pyInt (n : ℤ)
| pyBool (b : Bool)
| pyFloat (q : ℚ)
| pyStr (s : String)
deriving DecidableEq, Repr

/-- isinstance(x, (int, float)) — bool passes because bool is a subclass of int. -/
def PyVal.isNumber : PyVal → Bool
| .pyInt _ => true
| .pyBool _ => true
| .pyFloat _ => true
| .pyStr _ => false

/-- isinstance(x, int) — bool passes because bool is a subclass of int. -/
def PyVal.isIntLike : PyVal → Bool
| .pyInt _ => true
| .pyBool _ => true
| .pyFloat _ => false
| .pyStr _ => false

/-- isinstance(x, bool). -/
def PyVal.isBoolVal : PyVal → Bool
| .pyBool _ => true
| .pyInt _ => false
| .pyFloat _ => false
| .pyStr _ => false

/-- Numeric value of a PyVal (only used where isNumber/isIntLike holds). -/
def PyVal.toQ : PyVal → ℚ
| .pyInt n => (n : ℚ)
| .pyBool b => if b then 1 else 0
| .pyFloat q => q
| .pyStr _ => 0

/-- Transaction kind column of TransactionDB (type: deposit / withdraw). -/
inductive TxKind
| deposit
| withdraw
deriving DecidableEq, Repr

/-- A row of the transactions table, as created by deposit_credits and
withdraw_credits in storage/repository.py (amount, type, description). -/
structure TransactionRec where
  amount : ℚ
  kind : TxKind
  description : Option String
deriving DecidableEq, Repr

/-- The billing state of one user: the balance of the user's
BillingAccountDB row (none when the account row is absent) and that
account's transaction history, in insertion order. -/
structure LedgerState where
  account : Option ℚ
  txs : List TransactionRec
deriving DecidableEq, Repr

/-- Current balance (0 when no account row exists). -/
def bal (s : LedgerState) : ℚ := s.account.getD 0

/-- storage/repository.py deposit_credits: amount must be positive, the
account must exist; on success the balance grows by amount and one deposit
transaction row is appended, atomically (one commit). Errors are ValueError
exceptions raised before any mutation. -/
def deposit_credits (amount : ℚ) (description : Option String)
    (s : LedgerState) : Except String LedgerState :=
  if amount ≤ 0 then .error "Сумма должна быть положительной"
  else
    match s.account with
    | none => .error "Счёт пользователя не найден"
    | some b =>
        .ok ⟨some (b + amount), s.txs ++ [⟨amount, .deposit, description⟩]⟩

/-- storage/repository.py withdraw_credits: amount must be positive, the
account must exist, the balance must cover the amount; on success the
balance shrinks by amount and one withdraw transaction row (negative
amount) is appended, atomically. Errors are ValueError exceptions raised
before any mutation. -/
def withdraw_credits (amount : ℚ) (description : Option String)
    (s : LedgerState) : Except String LedgerState :=
  if amount ≤ 0 then .error "Сумма должна быть положительной"
  else
    match s.account with
    | none => .error "Счёт пользователя не найден"
    | some b =>
        if b < amount then .error "Недостаточно кредитов на балансе"
        else .ok ⟨some (b - amount), s.txs ++ [⟨-amount, .withdraw, description⟩]⟩

/-- One ledger operation of a client-driven sequence. -/
inductive LedgerOp
| dep (amount : ℚ)
| wd (amount : ℚ)
deriving DecidableEq, Repr

/-- Whether an Except result is a success. -/
def isOk {ε α : Type} : Except ε α → Bool
| .ok _ => true
| .error _ => false

/-- Apply one operation: a raised ValueError leaves the database state as it
was (the exception propagates before any mutation happened). -/
def applyOp (s : LedgerState) (op : LedgerOp) : LedgerState :=
  match op with
  | .dep a =>
      match deposit_credits a none s with
      | .ok s2 => s2
      | .error _ => s
  | .wd a =>
      match withdraw_credits a none s with
      | .ok s2 => s2
      | .error _ => s

/-- Whether an operation succeeds in a given state. -/
def opOk (s : LedgerState) (op : LedgerOp) : Bool :=
  match op with
  | .dep a => isOk (deposit_credits a none s)
  | .wd a => isOk (withdraw_credits a none s)

/-- Run a sequence of ledger operations. -/
def runOps (s : LedgerState) (ops : List LedgerOp) : LedgerState :=
  ops.foldl applyOp s

/-- Sum of the amounts of the deposits that succeed along the run. -/
def depositSum (s : LedgerState) (ops : List LedgerOp) : ℚ :=
  match ops with
  | [] => 0
  | op :: rest =>
      (match op with
       | .dep a => if opOk s op then a else 0
       | .wd _ => 0) + depositSum (applyOp s op) rest

/-- Sum of the amounts of the withdrawals that succeed along the run. -/
def withdrawSum (s : LedgerState) (ops : List LedgerOp) : ℚ :=
  match ops with
  | [] => 0
  | op :: rest =>
      (match op with
       | .dep _ => 0
       | .wd a => if opOk s op then a else 0) + withdrawSum (applyOp s op) rest

lemma bal_applyOp_dep (s : LedgerState) (a : ℚ) :
    bal (applyOp s (.dep a)) =
      bal s + (if opOk s (.dep a) then a else 0) := by
  unfold applyOp opOk deposit_credits isOk
  by_cases ha : a ≤ 0
  · simp [ha]
  · cases h : s.account with
    | none => simp [ha, h]
    | some b => simp [ha, h, bal]

lemma bal_applyOp_wd (s : LedgerState) (a : ℚ) :
    bal (applyOp s (.wd a)) =
      bal s - (if opOk s (.wd a) then a else 0) := by
  unfold applyOp opOk withdraw_credits isOk
  by_cases ha : a ≤ 0
  · simp [ha]
  · cases h : s.account with
    | none => simp [ha, h]
    | some b =>
        by_cases hb : b < a
        · simp [ha, h, hb]
        · simp [ha, h, hb, bal]

lemma wd_ok_le (s : LedgerState) (a : ℚ) (h : opOk s (.wd a) = true) :
    0 ≤ bal s - a := by
  unfold opOk withdraw_credits isOk at h
  by_cases ha : a ≤ 0
  · simp [ha] at h
  · cases hacc : s.account with
    | none => simp [ha, hacc] at h
    | some b =>
        by_cases hb : b < a
        · simp [ha, hacc, hb] at h
        · simp [bal, hacc]
          linarith [not_lt.mp hb]

lemma bal_nonneg_applyOp (s : LedgerState) (op : LedgerOp)
    (h : 0 ≤ bal s) : 0 ≤ bal (applyOp s op) := by
  cases op with
  | dep a =>
      rw [bal_applyOp_dep]
      by_cases hk : opOk s (.dep a) = true
      · have ha : ¬ a ≤ 0 := by
          intro hle
          unfold opOk deposit_credits isOk at hk
          simp [hle] at hk
        simp [hk]
        linarith [not_le.mp ha]
      · simp at hk
        simp [hk, h]
  | wd a =>
      rw [bal_applyOp_wd]
      by_cases hk : opOk s (.wd a) = true
      · have := wd_ok_le s a hk
        simp [hk]
        linarith
      · simp at hk
        simp [hk, h]

lemma runOps_balance (ops : List LedgerOp) :
    ∀ s : LedgerState,
      bal (runOps s ops) = bal s + depositSum s ops - withdrawSum s ops := by
  induction ops with
  | nil => intro s; simp [runOps, depositSum, withdrawSum]
  | cons op rest ih =>
      intro s
      have hrun : runOps s (op :: rest) = runOps (applyOp s op) rest := by
        simp [runOps, List.foldl]
      rw [hrun, ih (applyOp s op)]
      cases op with
      | dep a =>
          rw [show depositSum s (.dep a :: rest) =
                (if opOk s (.dep a) then a else 0) +
                  depositSum (applyOp s (.dep a)) rest from rfl,
              show withdrawSum s (.dep a :: rest) =
                0 + withdrawSum (applyOp s (.dep a)) rest from rfl,
              bal_applyOp_dep]
          ring
      | wd a =>
          rw [show depositSum s (.wd a :: rest) =
                0 + depositSum (applyOp s (.wd a)) rest from rfl,
              show withdrawSum s (.wd a :: rest) =
                (if opOk s (.wd a) then a else 0) +
                  withdrawSum (applyOp s (.wd a)) rest from rfl,
              bal_applyOp_wd]
          ring

lemma runOps_nonneg (ops : List LedgerOp) :
    ∀ s : LedgerState, 0 ≤ bal s → 0 ≤ bal (runOps s ops) := by
  induction ops with
  | nil => intro s h; simpa [runOps] using h
  | cons op rest ih =>
      intro s h
      have hrun : runOps s (op :: rest) = runOps (applyOp s op) rest := by
        simp [runOps, List.foldl]
      rw [hrun]
      exact ih _ (bal_nonneg_applyOp s op h)

/-- C2: for every sequence of deposit_credits / withdraw_credits operations
on one account, the final balance is the initial balance plus the sum of
the successful deposit amounts minus the sum of the successful withdrawal
amounts; no withdrawal that would drive the balance negative ever succeeds,
so a non-negative starting balance stays non-negative. -/
theorem ledger_balance_conservation (s : LedgerState) (ops : List LedgerOp) :
    bal (runOps s ops) = bal s + depositSum s ops - withdrawSum s ops ∧
    (0 ≤ bal s → 0 ≤ bal (runOps s ops)) ∧
    (∀ t : LedgerState, ∀ a : ℚ, opOk t (.wd a) = true → 0 ≤ bal t - a) :=
  ⟨runOps_balance ops s, runOps_nonneg ops s, wd_ok_le⟩

/-- Concrete instantiation of ledger_balance_conservation: balance 10,
deposit 4, withdraw 20 (fails), withdraw 7 (succeeds). -/
theorem ledger_balance_conservation_witness :
    bal (runOps ⟨some 10, []⟩ [.dep 4, .wd 20, .wd 7]) =
      bal ⟨some 10, []⟩ + depositSum ⟨some 10, []⟩ [.dep 4, .wd 20, .wd 7]
        - withdrawSum ⟨some 10, []⟩ [.dep 4, .wd 20, .wd 7] ∧
    0 ≤ bal (runOps ⟨some 10, []⟩ [.dep 4, .wd 20, .wd 7]) := by
  refine ⟨(ledger_balance_conservation ⟨some 10, []⟩ _).1, ?_⟩
  exact (ledger_balance_conservation ⟨some 10, []⟩ [.dep 4, .wd 20, .wd 7]).2.1
    (by norm_num [bal])

/-- C6: withdraw_credits fails exactly when the amount is non-positive, the
account row is absent, or the balance is strictly below the amount; on
success the balance drops by exactly the amount and exactly one withdraw
transaction row is appended. (An error is a ValueError raised before any
mutation, so the caller's state is untouched on every error path.) -/
theorem withdraw_credits_spec (a : ℚ) (d : Option String) (s : LedgerState) :
    ((∃ msg, withdraw_credits a d s = .error msg) ↔
      (a ≤ 0 ∨ s.account = none ∨ ∃ b, s.account = some b ∧ b < a)) ∧
    (∀ s2, withdraw_credits a d s = .ok s2 →
      s2.account = some (bal s - a) ∧
      s2.txs = s.txs ++ [⟨-a, .withdraw, d⟩]) := by
  constructor
  · constructor
    · rintro ⟨msg, hmsg⟩
      unfold withdraw_credits at hmsg
      by_cases ha : a ≤ 0
      · exact Or.inl ha
      · cases hacc : s.account with
        | none => exact Or.inr (Or.inl rfl)
        | some b =>
            by_cases hb : b < a
            · exact Or.inr (Or.inr ⟨b, rfl, hb⟩)
            · simp [ha, hacc, hb] at hmsg
    · intro h
      unfold withdraw_credits
      rcases h with ha | hacc | ⟨b, hacc, hb⟩
      · exact ⟨"Сумма должна быть положительной", by simp [ha]⟩
      · by_cases ha : a ≤ 0
        · exact ⟨"Сумма должна быть положительной", by simp [ha]⟩
        · exact ⟨"Счёт пользователя не найден", by simp [ha, hacc]⟩
      · by_cases ha : a ≤ 0
        · exact ⟨"Сумма должна быть положительной", by simp [ha]⟩
        · exact ⟨"Недостаточно кредитов на балансе", by simp [ha, hacc, hb]⟩
  · intro s2 hok
    unfold withdraw_credits at hok
    by_cases ha : a ≤ 0
    · simp [ha] at hok
    · cases hacc : s.account with
      | none => simp [ha, hacc] at hok
      | some b =>
          by_cases hb : b < a
          · simp [ha, hacc, hb] at hok
          · simp [ha, hacc, hb] at hok
            subst hok
            exact ⟨by simp [bal, hacc], rfl⟩

/-- Concrete instantiation of withdraw_credits_spec: balance 10,
withdraw 7 succeeds and leaves balance 3 with one appended row. -/
theorem withdraw_credits_spec_witness :
    (⟨some 3, [⟨-7, .withdraw, none⟩]⟩ : LedgerState).account =
        some (bal ⟨some 10, []⟩ - 7) ∧
    (⟨some 3, [⟨-7, .withdraw, none⟩]⟩ : LedgerState).txs =
        ([] : List TransactionRec) ++ [⟨-7, .withdraw, none⟩] := by
  have h := (withdraw_credits_spec 7 none ⟨some 10, []⟩).2
    ⟨some 3, [⟨-7, .withdraw, none⟩]⟩
  exact h (by norm_num [withdraw_credits])

/-- app/src/schemas/predict.py PredictionRequest: the pydantic schema at the
submission boundary. Fields are typed; the Field constraints (gt=0, ge=0,
ge=0, ge=0 le=1) are the schemaValid predicate below. -/
structure PredictionRequest where
  total_debt : ℚ
  penalty_amount : ℚ
  days_overdue : ℤ
  payments_ratio : ℚ
  is_physical_person : Bool
deriving DecidableEq, Repr

/-- The pydantic Field constraints of PredictionRequest. -/
def PredictionRequest.schemaValid (r : PredictionRequest) : Prop :=
  0 < r.total_debt ∧ 0 ≤ r.penalty_amount ∧ 0 ≤ r.days_overdue ∧
    0 ≤ r.payments_ratio ∧ r.payments_ratio ≤ 1

instance (r : PredictionRequest) : Decidable r.schemaValid := by
  unfold PredictionRequest.schemaValid
  infer_instance

/-- app/src/services/prediction.py calculate_prediction: the reference
scoring heuristic, clamped to [0,1]. Decimal literals are exact here. -/
def calculate_prediction (data : PredictionRequest) : ℚ :=
  let score : ℚ := 0.5
  let score :=
    if 0 < data.total_debt ∧ data.total_debt ≤ 100000 then score + 0.2
    else if 100000 < data.total_debt then score - 0.1
    else score
  let score := if 90 < data.days_overdue then score + 0.1 else score
  let score := if data.is_physical_person then score + 0.05 else score
  let score := score - data.payments_ratio * 0.2
  max 0 (min 1 score)

/-- The JSON input_data dict of a task: the five keys the system ever
reads, each possibly absent, with dynamically-typed values. -/
structure InputDict where
  total_debt : Option PyVal
  penalty_amount : Option PyVal
  days_overdue : Option PyVal
  payments_ratio : Option PyVal
  is_physical_person : Option PyVal
deriving DecidableEq, Repr

/-- app/src/routers/predict.py lines 91-97: the input_data dict stored on
the created task — float() around the three ℚ fields, the int and the bool
stored as is. -/
def storeInput (r : PredictionRequest) : InputDict :=
  { total_debt := some (.pyFloat r.total_debt)
  , penalty_amount := some (.pyFloat r.penalty_amount)
  , days_overdue := some (.pyInt r.days_overdue)
  , payments_ratio := some (.pyFloat r.payments_ratio)
  , is_physical_person := some (.pyBool r.is_physical_person) }

/-- app/src/ml_worker.py validate_input_data: presence of the five required
fields is checked first (in declaration order), then type and range checks
in order; returns (is_valid, error_message). -/
def validate_input_data (d : InputDict) : Bool × String :=
  match d.total_debt, d.penalty_amount, d.days_overdue,
        d.payments_ratio, d.is_physical_person with
  | none, _, _, _, _ =>
      (false, "Отсутствует обязательное поле: total_debt")
  | some _, none, _, _, _ =>
      (false, "Отсутствует обязательное поле: penalty_amount")
  | some _, some _, none, _, _ =>
      (false, "Отсутствует обязательное поле: days_overdue")
  | some _, some _, some _, none, _ =>
      (false, "Отсутствует обязательное поле: payments_ratio")
  | some _, some _, some _, some _, none =>
      (false, "Отсутствует обязательное поле: is_physical_person")
  | some td, some pa, some dor, some pr, some ipp =>
      if td.isNumber = true ∧ 0 < td.toQ then
        if pa.isNumber = true ∧ 0 ≤ pa.toQ then
          if dor.isIntLike = true ∧ 0 ≤ dor.toQ then
            if pr.isNumber = true ∧ 0 ≤ pr.toQ ∧ pr.toQ ≤ 1 then
              if ipp.isBoolVal = true then (true, "")
              else (false, "is_physical_person должен быть булевым значением")
            else (false, "payments_ratio должен быть числом от 0 до 1")
          else (false, "days_overdue должен быть неотрицательным целым числом")
        else (false, "penalty_amount должен быть неотрицательным числом")
      else (false, "total_debt должен быть положительным числом")

/-- C8: the reference Scorer on the payload (50000, 5000, 120, 0.3, true)
returns exactly 0.79 = 0.5 + 0.2 + 0.1 + 0.05 - 0.06. -/
theorem scorer_reference_payload :
    calculate_prediction ⟨50000, 5000, 120, 0.3, true⟩ = 0.79 := by
  norm_num [calculate_prediction]

/-- C9: every payload accepted by the submission schema, once stored as the
task's input_data by the /predict path, passes the worker's
validate_input_data check, so the worker's validation-failure branch is
unreachable for tasks created through /predict. -/
theorem schema_accepted_passes_worker_validation (r : PredictionRequest)
    (h : r.schemaValid) : validate_input_data (storeInput r) = (true, "") := by
  obtain ⟨h1, h2, h3, h4, h5⟩ := h
  have h3q : (0 : ℚ) ≤ (r.days_overdue : ℚ) := by exact_mod_cast h3
  simp [validate_input_data, storeInput, PyVal.isNumber, PyVal.isIntLike,
        PyVal.isBoolVal, PyVal.toQ, h1, h2, h3q, h4, h5]

/-- Concrete instantiation of schema_accepted_passes_worker_validation on
the reference payload. -/
theorem schema_accepted_passes_worker_validation_witness :
    validate_input_data (storeInput ⟨50000, 5000, 120, 0.3, true⟩) =
      (true, "") :=
  schema_accepted_passes_worker_validation ⟨50000, 5000, 120, 0.3, true⟩
    (by norm_num [PredictionRequest.schemaValid])

/-- A row of ml_models (MLModelDB): id, unique name, description, positive
integer price in credits. -/
structure MLModel where
  id : ℕ
  name : String
  description : Option String
  price_credits : ℤ
deriving DecidableEq, Repr

/-- Modelled from the spec: the MLTaskDB column declaration is not under
src/ (only its callers are); fields follow spec §3 Task and the attribute
reads/writes in ml_worker.py and routers/predict.py — id, owning user,
model id, input payload, status, nullable prediction result, nullable
error message, credits charged, created/started/completed timestamps. -/
structure Task where
  id : ℕ
  user_id : ℕ
  model_id : ℕ
  status : TaskStatus
  input_data : InputDict
  prediction : Option ℚ
  error_message : Option String
  credits_charged : ℤ
  created_at : Option ℕ
  started_at : Option ℕ
  completed_at : Option ℕ
deriving DecidableEq, Repr

/-- Modelled from the spec: the PredictionDB column declaration is not
under src/; fields follow spec §3 PredictionRecord and the constructor
call in ml_worker.py — a denormalized append-only copy of a completed
task's inputs and output. -/
structure PredictionRec where
  user_id : ℕ
  model_id : ℕ
  total_debt : PyVal
  penalty_amount : PyVal
  days_overdue : PyVal
  payments_ratio : PyVal
  is_physical_person : PyVal
  prediction : ℚ
  credits_charged : ℤ
deriving DecidableEq, Repr

/-- The persistent database state the core mutates: tasks, model catalog,
the current user's billing ledger, prediction history. -/
structure Db where
  tasks : List Task
  models : List MLModel
  ledger : LedgerState
  predictions : List PredictionRec
deriving DecidableEq, Repr

/-- db.query(MLTaskDB).filter(MLTaskDB.id == task_id).first() -/
def findTask (ts : List Task) (tid : ℕ) : Option Task :=
  ts.find? (fun t => t.id == tid)

/-- Persist a mutated ORM task object: the row with the matching id now
holds the new record. -/
def replaceTask (ts : List Task) (tid : ℕ) (t2 : Task) : List Task :=
  ts.map (fun t => if t.id = tid then t2 else t)

/-- db.query(MLModelDB).filter(MLModelDB.id == model_id).first() -/
def findModel (ms : List MLModel) (mid : ℕ) : Option MLModel :=
  ms.find? (fun m => m.id == mid)

/-- Reading a key out of the input_data dict (validation has ensured
presence wherever this is used). -/
def dictGet (o : Option PyVal) : PyVal := o.getD (.pyStr "")

/-- pydantic coercion of a dynamic value into a float field. -/
def coerceFloat : PyVal → Option ℚ
| .pyInt n => some (n : ℚ)
| .pyFloat q => some q
| .pyBool _ => none
| .pyStr _ => none

/-- pydantic coercion of a dynamic value into an int field (an integral
float is accepted). -/
def coerceInt : PyVal → Option ℤ
| .pyInt n => some n
| .pyFloat q => if q.den = 1 then some q.num else none
| .pyBool _ => none
| .pyStr _ => none

/-- pydantic coercion of a dynamic value into a bool field. -/
def coerceBool : PyVal → Option Bool
| .pyBool b => some b
| .pyInt _ => none
| .pyFloat _ => none
| .pyStr _ => none

/-- PredictionRequest(**task.input_data) in ml_worker.py: pydantic
re-validates the stored payload against the schema, re-applying the Field
constraints; any failure raises and the worker marks the task failed. -/
def toPredictionRequest (d : InputDict) : Option PredictionRequest :=
  match d.total_debt.bind coerceFloat, d.penalty_amount.bind coerceFloat,
        d.days_overdue.bind coerceInt, d.payments_ratio.bind coerceFloat,
        d.is_physical_person.bind coerceBool with
  | some td, some pa, some dor, some pr, some ipp =>
      if 0 < td ∧ 0 ≤ pa ∧ 0 ≤ dor ∧ 0 ≤ pr ∧ pr ≤ 1 then
        some ⟨td, pa, dor, pr, ipp⟩
      else none
  | _, _, _, _, _ => none

/-- ml_worker.py lines 112-115: set status processing and started_at, then
commit. -/
def markProcessing (now : ℕ) (t : Task) : Task :=
  { t with status := .processing, started_at := some now }

/-- ml_worker.py failure paths: set status failed, error_message and
completed_at, then commit. -/
def markFailed (now : ℕ) (msg : String) (t : Task) : Task :=
  { t with status := .failed, error_message := some msg,
           completed_at := some now }

/-- ml_worker.py success path: record the prediction, overwrite
credits_charged with the model price, set status completed and
completed_at. -/
def markCompleted (now : ℕ) (score : ℚ) (price : ℤ) (t : Task) : Task :=
  { t with prediction := some score, credits_charged := price,
           status := .completed, completed_at := some now }

/-- The outcome of one process_ml_task call: the final database state, the
sequence of committed (persisted) database snapshots in order, and whether
calculate_prediction (the Scorer) was invoked. -/
structure WorkerRun where
  finalDb : Db
  commits : List Db
  scorerCalled : Bool
deriving DecidableEq, Repr

/-- ml_worker.py process_ml_task: look the task up; return untouched unless
its status is pending; commit status processing; validate the payload
(failure marks failed); look the model up (absence marks failed); rebuild
the pydantic request (failure marks failed); otherwise run the Scorer,
record the result and append the PredictionRec, all committed at once. -/
def process_ml_task (now : ℕ) (tid : ℕ) (db : Db) : WorkerRun :=
  match findTask db.tasks tid with
  | none => ⟨db, [], false⟩
  | some task =>
      if task.status = TaskStatus.pending then
        let t1 := markProcessing now task
        let db1 : Db := { db with tasks := replaceTask db.tasks tid t1 }
        let v := validate_input_data t1.input_data
        if v.1 = true then
          match findModel db1.models t1.model_id with
          | none =>
              let t2 := markFailed now "ML модель не найдена" t1
              let db2 : Db := { db1 with tasks := replaceTask db1.tasks tid t2 }
              ⟨db2, [db1, db2], false⟩
          | some m =>
              match toPredictionRequest t1.input_data with
              | none =>
                  let t2 := markFailed now "Ошибка формата данных" t1
                  let db2 : Db :=
                    { db1 with tasks := replaceTask db1.tasks tid t2 }
                  ⟨db2, [db1, db2], false⟩
              | some req =>
                  let score := calculate_prediction req
                  let t2 := markCompleted now score m.price_credits t1
                  let rec2 : PredictionRec :=
                    ⟨t1.user_id, t1.model_id,
                     dictGet t1.input_data.total_debt,
                     dictGet t1.input_data.penalty_amount,
                     dictGet t1.input_data.days_overdue,
                     dictGet t1.input_data.payments_ratio,
                     dictGet t1.input_data.is_physical_person,
                     score, m.price_credits⟩
                  let db2 : Db :=
                    { db1 with tasks := replaceTask db1.tasks tid t2,
                               predictions := db1.predictions ++ [rec2] }
                  ⟨db2, [db1, db2], true⟩
        else
          let t2 := markFailed now ("Ошибка валидации: " ++ v.2) t1
          let db2 : Db := { db1 with tasks := replaceTask db1.tasks tid t2 }
          ⟨db2, [db1, db2], false⟩
      else ⟨db, [], false⟩

/-- A sequence of (re)deliveries of the same task reference to the worker,
each at its own time. -/
def runDeliveries (tid : ℕ) (nows : List ℕ) (db : Db) : Db :=
  nows.foldl (fun d n => (process_ml_task n tid d).finalDb) db

lemma process_ml_task_nonpending (now tid : ℕ) (db : Db) (t : Task)
    (hl : findTask db.tasks tid = some t)
    (hnp : t.status ≠ TaskStatus.pending) :
    process_ml_task now tid db = ⟨db, [], false⟩ := by
  unfold process_ml_task
  rw [hl]
  simp [hnp]

/-- C3: a task in a terminal state (completed or failed) is never changed
by any number of further deliveries of its reference to the worker: the
whole database is left exactly as it was, so status, result, error message
and timestamps are all unchanged. -/
theorem terminal_task_frozen (tid : ℕ) (db : Db) (t : Task)
    (hl : findTask db.tasks tid = some t)
    (hterm : t.status = TaskStatus.completed ∨ t.status = TaskStatus.failed) :
    ∀ nows : List ℕ, runDeliveries tid nows db = db := by
  have hnp : t.status ≠ TaskStatus.pending := by
    rcases hterm with h | h <;> simp [h]
  intro nows
  induction nows with
  | nil => rfl
  | cons n ns ih =>
      have hstep : (process_ml_task n tid db).finalDb = db := by
        rw [process_ml_task_nonpending n tid db t hl hnp]
      have hfold : runDeliveries tid (n :: ns) db
          = runDeliveries tid ns ((process_ml_task n tid db).finalDb) := rfl
      rw [hfold, hstep]
      exact ih

/-- C4: a duplicate delivery of a task already processing, completed or
failed leaves the whole database unchanged (in particular no balance change
and no new transaction) and never invokes the Scorer. -/
theorem duplicate_delivery_no_effect (now tid : ℕ) (db : Db) (t : Task)
    (hl : findTask db.tasks tid = some t)
    (h : t.status = TaskStatus.processing ∨ t.status = TaskStatus.completed ∨
         t.status = TaskStatus.failed) :
    (process_ml_task now tid db).finalDb = db ∧
    (process_ml_task now tid db).scorerCalled = false ∧
    (process_ml_task now tid db).finalDb.ledger.account = db.ledger.account ∧
    (process_ml_task now tid db).finalDb.ledger.txs = db.ledger.txs := by
  have hnp : t.status ≠ TaskStatus.pending := by
    rcases h with h | h | h <;> simp [h]
  rw [process_ml_task_nonpending now tid db t hl hnp]
  exact ⟨rfl, rfl, rfl, rfl⟩

/-- The seeded court-order model: price 5 credits. -/
def exModel : MLModel := ⟨1, "court_order_suitability_v1", none, 5⟩

/-- A schema-valid stored payload. -/
def exInputOk : InputDict := storeInput ⟨50000, 5000, 120, 0.3, true⟩

/-- A completed task. -/
def exTaskDone : Task :=
  ⟨1, 1, 1, .completed, exInputOk, some 0.79, none, 5, some 0, some 1, some 2⟩

/-- A database holding one completed task. -/
def exDbDone : Db := ⟨[exTaskDone], [exModel], ⟨some 5, []⟩, []⟩

/-- Concrete instantiation of terminal_task_frozen: three redeliveries of a
completed task leave the database untouched. -/
theorem terminal_task_frozen_witness :
    runDeliveries 1 [3, 4, 5] exDbDone = exDbDone :=
  terminal_task_frozen 1 exDbDone exTaskDone rfl (Or.inl rfl) [3, 4, 5]

/-- A task already picked up by another worker. -/
def exTaskProc : Task :=
  ⟨1, 1, 1, .processing, exInputOk, none, none, 5, some 0, some 1, none⟩

/-- A database holding one processing task. -/
def exDbProc : Db := ⟨[exTaskProc], [exModel], ⟨some 5, []⟩, []⟩

/-- Concrete instantiation of duplicate_delivery_no_effect on a processing
task. -/
theorem duplicate_delivery_no_effect_witness :
    (process_ml_task 9 1 exDbProc).finalDb = exDbProc ∧
    (process_ml_task 9 1 exDbProc).scorerCalled = false :=
  ⟨(duplicate_delivery_no_effect 9 1 exDbProc exTaskProc rfl (Or.inl rfl)).1,
   (duplicate_delivery_no_effect 9 1 exDbProc exTaskProc rfl (Or.inl rfl)).2.1⟩

lemma findTask_id (ts : List Task) (tid : ℕ) (t : Task)
    (h : findTask ts tid = some t) : t.id = tid := by
  unfold findTask at h
  have := List.find?_some h
  simpa using this

lemma findTask_replaceTask (ts : List Task) (tid : ℕ) (t t2 : Task)
    (h : findTask ts tid = some t) (hid : t2.id = tid) :
    findTask (replaceTask ts tid t2) tid = some t2 := by
  induction ts with
  | nil => simp [findTask] at h
  | cons a as ih =>
      by_cases ha : a.id = tid
      · have hrw : replaceTask (a :: as) tid t2 = t2 :: replaceTask as tid t2 := by
          simp [replaceTask, ha]
        unfold findTask
        rw [hrw]
        exact List.find?_cons_of_pos _ (by simp [hid])
      · have hrw : replaceTask (a :: as) tid t2 = a :: replaceTask as tid t2 := by
          simp [replaceTask, ha]
        have h2 : findTask as tid = some t := by
          unfold findTask at h
          rwa [List.find?_cons_of_neg (p := fun u : Task => u.id == tid) as
            (by simp [ha])] at h
        unfold findTask
        rw [hrw, List.find?_cons_of_neg (p := fun u : Task => u.id == tid)
          (replaceTask as tid t2) (by simp [ha])]
        exact ih h2

/-- Shorthand used in statements and proofs: the database with its tasks
field replaced (definitionally equal to the record update the worker
performs). -/
def withTasks (db : Db) (ts : List Task) : Db :=
  { db with tasks := ts }

lemma withTasks_tasks (db : Db) (ts : List Task) :
    (withTasks db ts).tasks = ts := rfl

/-- Amended C5: a pending task whose payload fails validation ends failed
with the validation error message and a completed timestamp, and the Scorer
is never invoked — but the worker first commits an intermediate snapshot
with the task in status processing (ml_worker.py sets processing and
commits before running the validation), so the processing state is
persisted and observable before the failure is recorded. -/
theorem validation_failure_marks_failed (now tid : ℕ) (db : Db) (t : Task)
    (msg : String)
    (hl : findTask db.tasks tid = some t)
    (hp : t.status = TaskStatus.pending)
    (hv : validate_input_data t.input_data = (false, msg)) :
    ((findTask (process_ml_task now tid db).finalDb.tasks tid).map Task.status
        = some TaskStatus.failed) ∧
    ((findTask (process_ml_task now tid db).finalDb.tasks tid).bind
        Task.error_message = some ("Ошибка валидации: " ++ msg)) ∧
    ((findTask (process_ml_task now tid db).finalDb.tasks tid).bind
        Task.completed_at = some now) ∧
    (process_ml_task now tid db).scorerCalled = false ∧
    ((process_ml_task now tid db).commits.map
        (fun d => (findTask d.tasks tid).map Task.status))
      = [some TaskStatus.processing, some TaskStatus.failed] := by
  have hid : t.id = tid := findTask_id db.tasks tid t hl
  have hid1 : (markProcessing now t).id = tid := hid
  have h1 : findTask (replaceTask db.tasks tid (markProcessing now t)) tid
      = some (markProcessing now t) :=
    findTask_replaceTask db.tasks tid t (markProcessing now t) hl hid1
  have hid2 : (markFailed now ("Ошибка валидации: " ++ msg)
      (markProcessing now t)).id = tid := hid
  have h2 : findTask (replaceTask (replaceTask db.tasks tid
        (markProcessing now t)) tid
        (markFailed now ("Ошибка валидации: " ++ msg) (markProcessing now t)))
        tid
      = some (markFailed now ("Ошибка валидации: " ++ msg)
          (markProcessing now t)) :=
    findTask_replaceTask (replaceTask db.tasks tid (markProcessing now t)) tid
      (markProcessing now t)
      (markFailed now ("Ошибка валидации: " ++ msg) (markProcessing now t))
      h1 hid2
  have hv1 : validate_input_data (markProcessing now t).input_data
      = (false, msg) := hv
  have hrun : process_ml_task now tid db =
      ⟨withTasks db (replaceTask (replaceTask db.tasks tid (markProcessing now t)) tid (markFailed now ("Ошибка валидации: " ++ msg) (markProcessing now t))),
       [withTasks db (replaceTask db.tasks tid (markProcessing now t)),
        withTasks db (replaceTask (replaceTask db.tasks tid (markProcessing now t)) tid (markFailed now ("Ошибка валидации: " ++ msg) (markProcessing now t)))],
       false⟩ := by
    simp only [process_ml_task, hl]
    rw [if_pos hp, hv1, if_neg (by simp)]
    rfl
  rw [hrun]
  refine ⟨?_, ?_, ?_, rfl, ?_⟩
  · rw [withTasks_tasks, h2]
    rfl
  · rw [withTasks_tasks, h2]
    rfl
  · rw [withTasks_tasks, h2]
    rfl
  · simp only [List.map_cons, List.map_nil, withTasks_tasks, h1, h2]
    rfl

/-- A stored payload with days_overdue missing: it fails the worker's
validation. -/
def exInputBad : InputDict :=
  { total_debt := some (.pyFloat 100)
  , penalty_amount := some (.pyFloat 0)
  , days_overdue := none
  , payments_ratio := some (.pyFloat 0)
  , is_physical_person := some (.pyBool true) }

/-- A pending task carrying the invalid payload. -/
def exTaskBad : Task :=
  ⟨1, 1, 1, .pending, exInputBad, none, none, 5, some 0, none, none⟩

/-- A database holding the invalid pending task. -/
def exDbBad : Db := ⟨[exTaskBad], [exModel], ⟨some 5, []⟩, []⟩

/-- C5 counterexample: processing a pending task whose payload fails
validation commits an intermediate snapshot in which the task's persisted
status is processing, before the final failed snapshot — refuting the claim
that such a task never enters the processing state. -/
theorem validation_failure_persists_processing_state :
    (validate_input_data exTaskBad.input_data).1 = false ∧
    ((process_ml_task 7 1 exDbBad).commits.map
        (fun d => (findTask d.tasks 1).map Task.status))
      = [some TaskStatus.processing, some TaskStatus.failed] := by
  exact ⟨rfl, rfl⟩

/-- Concrete instantiation of validation_failure_marks_failed on the
invalid payload. -/
theorem validation_failure_marks_failed_witness :
    ((findTask (process_ml_task 7 1 exDbBad).finalDb.tasks 1).map Task.status
      = some TaskStatus.failed) ∧
    (process_ml_task 7 1 exDbBad).scorerCalled = false := by
  have h := validation_failure_marks_failed 7 1 exDbBad exTaskBad
    "Отсутствует обязательное поле: days_overdue" rfl rfl rfl
  exact ⟨h.1, h.2.2.2.1⟩

/-- What the /predict handler returns to the caller: either the accepted
response (task id, status, model name, credits charged) or an HTTPException
with the given status code. -/
inductive PredictOutcome
| accepted (task_id : ℕ) (st : TaskStatus) (model_name : String)
    (credits_charged : ℤ)
| httpError (code : ℕ)
deriving DecidableEq, Repr

/-- Autoincrement id for the inserted task row. -/
def nextTaskId (db : Db) : ℕ :=
  (db.tasks.map Task.id).foldr max 0 + 1

/-- db.query(MLModelDB).filter(MLModelDB.name == "court_order_suitability_v1").first() -/
def findModelByName (db : Db) : Option MLModel :=
  db.models.find? (fun m => m.name == "court_order_suitability_v1")

/-- app/src/routers/predict.py predict: look the model up (500 when
absent); 402 when the account is absent or its balance is below the model
price; withdraw_credits (a ValueError becomes 400); insert the pending
task with the stored payload and commit; then publish to the queue — on a
publish exception the task is marked failed with an error message, that is
committed, and a 503 is raised; otherwise the accepted response is
returned. publishOk says whether publish_task succeeds. -/
def predict (uid : ℕ) (req : PredictionRequest) (publishOk : Bool)
    (now : ℕ) (db : Db) : PredictOutcome × Db :=
  match findModelByName db with
  | none => (.httpError 500, db)
  | some model =>
      match db.ledger.account with
      | none => (.httpError 402, db)
      | some b =>
          if b < (model.price_credits : ℚ) then (.httpError 402, db)
          else
            match withdraw_credits (model.price_credits : ℚ)
                (some ("ML задача: " ++ model.name)) db.ledger with
            | .error _ => (.httpError 400, db)
            | .ok led2 =>
                let task : Task :=
                  ⟨nextTaskId db, uid, model.id, .pending, storeInput req,
                   none, none, model.price_credits, some now, none, none⟩
                let task2 : Task :=
                  { task with status := .failed, error_message := some "Не удалось отправить задачу в очередь" }
                if publishOk then
                  (.accepted task.id .pending model.name model.price_credits,
                   { db with ledger := led2, tasks := db.tasks ++ [task] })
                else
                  (.httpError 503,
                   { db with ledger := led2, tasks := db.tasks ++ [task2] })

/-- C1: when the account balance is strictly below the model price the
submission fails with HTTP 402 and the database is completely unchanged —
no task row, no transaction, same balance. -/
theorem predict_insufficient_funds (uid : ℕ) (req : PredictionRequest)
    (pub : Bool) (now : ℕ) (db : Db) (m : MLModel) (b : ℚ)
    (hm : findModelByName db = some m)
    (hb : db.ledger.account = some b)
    (hlt : b < (m.price_credits : ℚ)) :
    (predict uid req pub now db).1 = .httpError 402 ∧
    (predict uid req pub now db).2 = db ∧
    (predict uid req pub now db).2.tasks = db.tasks ∧
    (predict uid req pub now db).2.ledger.txs = db.ledger.txs ∧
    (predict uid req pub now db).2.ledger.account = some b := by
  have hrun : predict uid req pub now db = (.httpError 402, db) := by
    simp only [predict, hm, hb]
    rw [if_pos hlt]
  rw [hrun]
  exact ⟨rfl, rfl, rfl, rfl, hb⟩

/-- A database whose single account holds balance 3, below the model
price 5. -/
def exDbPoor : Db := ⟨[], [exModel], ⟨some 3, []⟩, []⟩

/-- Concrete instantiation of predict_insufficient_funds: balance 3,
price 5 — submit fails with 402 and the balance stays 3. -/
theorem predict_insufficient_funds_witness :
    (predict 1 ⟨50000, 5000, 120, 0.3, true⟩ true 0 exDbPoor).1
      = .httpError 402 ∧
    (predict 1 ⟨50000, 5000, 120, 0.3, true⟩ true 0 exDbPoor).2.tasks = [] ∧
    (predict 1 ⟨50000, 5000, 120, 0.3, true⟩ true 0
        exDbPoor).2.ledger.account = some 3 := by
  have h := predict_insufficient_funds 1 ⟨50000, 5000, 120, 0.3, true⟩
    true 0 exDbPoor exModel 3 rfl rfl (by norm_num [exModel])
  exact ⟨h.1, h.2.2.1, h.2.2.2.2⟩

/-- C7: when the debit and the task insertion succeed but publishing to
the queue fails, the handler returns 503 synchronously, the new task is
persisted as failed (never left pending) with an error message, and the
debit is kept: the balance stays decreased by the model price. -/
theorem predict_publish_failure (uid : ℕ) (req : PredictionRequest)
    (now : ℕ) (db : Db) (m : MLModel) (b : ℚ)
    (hm : findModelByName db = some m)
    (hb : db.ledger.account = some b)
    (hpos : 0 < m.price_credits)
    (hge : (m.price_credits : ℚ) ≤ b) :
    (predict uid req false now db).1 = .httpError 503 ∧
    (predict uid req false now db).2.ledger.account
      = some (b - (m.price_credits : ℚ)) ∧
    (∃ t : Task, (predict uid req false now db).2.tasks = db.tasks ++ [t] ∧
      t.status = TaskStatus.failed ∧ t.status ≠ TaskStatus.pending ∧
      t.error_message.isSome = true) := by
  have hnlt : ¬ b < (m.price_credits : ℚ) := not_lt.mpr hge
  have hna : ¬ (m.price_credits : ℚ) ≤ 0 := by
    push_neg
    exact_mod_cast hpos
  have hrun : predict uid req false now db =
      (.httpError 503,
       ⟨db.tasks ++
          [⟨nextTaskId db, uid, m.id, .failed, storeInput req, none,
            some "Не удалось отправить задачу в очередь", m.price_credits,
            some now, none, none⟩],
        db.models,
        ⟨some (b - (m.price_credits : ℚ)),
         db.ledger.txs ++
           [⟨-(m.price_credits : ℚ), .withdraw,
             some ("ML задача: " ++ m.name)⟩]⟩,
        db.predictions⟩) := by
    simp only [predict, hm, hb]
    rw [if_neg hnlt]
    simp only [withdraw_credits, hb, if_neg hna]
    rw [if_neg hnlt]
    rfl
  rw [hrun]
  refine ⟨rfl, rfl, ?_⟩
  exact ⟨_, rfl, rfl, by simp, rfl⟩

/-- A database whose single account holds balance 10, above the model
price 5. -/
def exDbRich : Db := ⟨[], [exModel], ⟨some 10, []⟩, []⟩

/-- Concrete instantiation of predict_publish_failure: balance 10,
price 5, broker down — 503, balance 5, and the one inserted task is
failed. -/
theorem predict_publish_failure_witness :
    (predict 1 ⟨50000, 5000, 120, 0.3, true⟩ false 0 exDbRich).1
      = .httpError 503 ∧
    (predict 1 ⟨50000, 5000, 120, 0.3, true⟩ false 0
        exDbRich).2.ledger.account = some 5 := by
  have h := predict_publish_failure 1 ⟨50000, 5000, 120, 0.3, true⟩
    0 exDbRich exModel 10 rfl rfl (by norm_num [exModel])
    (by norm_num [exModel])
  refine ⟨h.1, ?_⟩
  rw [h.2.1]
  norm_num [exModel]

/-- The projection get_task_status builds for the caller. -/
structure TaskStatusView where
  status : TaskStatus
  credits_charged : ℤ
  prediction : Option ℚ
  input_data : Option InputDict
  error_message : Option String
deriving DecidableEq, Repr

/-- app/src/routers/predict.py get_task_status: the prediction field is
set only for a completed task and only when the stored value is truthy
(float(task.prediction) if task.prediction else None — both None and 0.0
are falsy); input_data is echoed for completed tasks, error_message for
failed ones. -/
def get_task_status (t : Task) : TaskStatusView :=
  { status := t.status
  , credits_charged := t.credits_charged
  , prediction :=
      if t.status = TaskStatus.completed then
        match t.prediction with
        | some p => if p = 0 then none else some p
        | none => none
      else none
  , input_data :=
      if t.status = TaskStatus.completed then some t.input_data else none
  , error_message :=
      if t.status = TaskStatus.failed then t.error_message else none }

/-- C10: for a completed task whose stored prediction is exactly 0.0 the
status endpoint reports prediction = None rather than 0.0, because the
response field is populated only when the stored value is truthy. -/
theorem completed_zero_prediction_hidden (t : Task)
    (hc : t.status = TaskStatus.completed)
    (hp : t.prediction = some 0) :
    (get_task_status t).prediction = none := by
  simp [get_task_status, hc, hp]

/-- A completed task that legitimately scored 0.0. -/
def exTaskZero : Task :=
  ⟨2, 1, 1, .completed, exInputOk, some 0, none, 5, some 0, some 1, some 2⟩

/-- Concrete instantiation of completed_zero_prediction_hidden. -/
theorem completed_zero_prediction_hidden_witness :
    (get_task_status exTaskZero).prediction = none :=
  completed_zero_prediction_hidden exTaskZero rfl rfl

end CourtOrder
